import Mathlib

/-!
# Formal model of `mortgage.py` (`Mortgage` amortization engine)

Shallow embedding of `src/mortgage.py`.  Conventions used throughout:

* Python `float` and `decimal.Decimal` values are both modelled as exact
  rationals (`ℚ`).  The monetary claims all concern `Decimal` arithmetic,
  which is exact at these scales; the `float` intermediates
  (`monthly_payment`, `balance`, ...) are idealised to exact rational
  arithmetic.  Every concrete value proved below sits far from a rounding
  boundary relative to double-precision error, so the idealisation does not
  affect any of the concrete results.
* `decimal.Decimal.quantize(Decimal('.01'), rounding=ROUND_CEILING)` is
  `dollar_ceiling`; with `ROUND_HALF_UP` (ties away from zero) it is
  `dollar_half_up`; `.quantize(Decimal('.000001'))` with the default
  context rounding `ROUND_HALF_EVEN` is `quantize6`.
* The expression `balance * rate * Decimal(1)/MONTHS_IN_YEAR` in
  `monthly_payment_schedule` performs one `Decimal` division at 28
  significant digits.  We model that division as exact: the exact value
  `balance*rate/12` has denominator dividing `12·10^8`, so it is at distance
  at least `1/(6·10^10)` from every half-cent boundary whenever it does not
  terminate, while the 28-digit rounding perturbs it by less than `10^-18`
  at these magnitudes; the subsequent 2-digit `ROUND_HALF_UP` therefore
  agrees with the exact model.
* Python `int(x)` truncates toward zero: `int_trunc`.
* `raise InputError` is modelled with `Except InputError`.
* The generator `monthly_payment_schedule` is modelled as a fuel-indexed
  list producer `schedule_aux` (single step: `schedule_step`); `none` means
  the generator did not finish within the given fuel.
-/

/-- `decimal.ROUND_HALF_UP`: round to the nearest integer, ties away from
zero (mortgage.py uses it via `dollar(..., round=decimal.ROUND_HALF_UP)`). -/
def roundHalfUp (x : ℚ) : ℤ :=
  if 0 ≤ x then ⌊x + 1/2⌋ else -⌊-x + 1/2⌋

/-- `decimal.ROUND_HALF_EVEN` (the default context rounding used by
`Decimal.quantize` when no rounding argument is passed): round to nearest,
ties to the even neighbour. -/
def roundHalfEven (x : ℚ) : ℤ :=
  if x - ⌊x⌋ < 1/2 then ⌊x⌋
  else if 1/2 < x - ⌊x⌋ then ⌊x⌋ + 1
  else if ⌊x⌋ % 2 = 0 then ⌊x⌋ else ⌊x⌋ + 1

/-- `dollar(f)` = `dollar(f, round=decimal.ROUND_CEILING)` (mortgage.py
lines 11-17): quantize to 2 decimal places rounding toward +infinity. -/
def dollar_ceiling (f : ℚ) : ℚ := ((⌈f * 100⌉ : ℤ) : ℚ) / 100

/-- `dollar(f, round=decimal.ROUND_HALF_UP)`: quantize to 2 decimal places,
round half away from zero. -/
def dollar_half_up (f : ℚ) : ℚ := ((roundHalfUp (f * 100) : ℤ) : ℚ) / 100

/-- `Decimal(str(x)).quantize(decimal.Decimal('.000001'))` (mortgage.py
line 120): quantize to 6 decimal places with the context default
`ROUND_HALF_EVEN`.  `str` of a float produces its shortest decimal
representation, which for the rationals used here is the value itself. -/
def quantize6 (x : ℚ) : ℚ := ((roundHalfEven (x * 1000000) : ℤ) : ℚ) / 1000000

/-- Python `int(q)`: truncation toward zero. -/
def int_trunc (q : ℚ) : ℤ := if 0 ≤ q then ⌊q⌋ else ⌈q⌉

/-- "is an exact decimal value with (at most) 2 fractional digits", i.e. an
integer number of cents.  (A `Decimal` quantized to `'.01'` is exactly such
a value.) -/
def isCents (q : ℚ) : Prop := (100 * q).den = 1

instance (q : ℚ) : Decidable (isCents q) := by unfold isCents; infer_instance

/-- `class InputError(Exception)` (mortgage.py lines 19-28). -/
structure InputError where
  msg : String
deriving DecidableEq

/-- `Mortgage.__months(months, years)` (mortgage.py lines 131-139):
parse the months/years specification, raising `InputError` when both or
neither are supplied; `int(months)` resp. `int(years*12)` otherwise. -/
def monthsOf (months years : Option ℚ) : Except InputError ℤ :=
  match months, years with
  | some _, some _ => Except.error ⟨"years cannot be specified together with months"⟩
  | some m, none => Except.ok (int_trunc m)
  | none, some y => Except.ok (int_trunc (y * 12))
  | none, none => Except.error ⟨"months or years must be specified"⟩

/-- The state of a constructed `Mortgage` object (mortgage.py lines 31-34):
`interest` is `self._interest`, `months` is `self._months` (an int), and
`amount` is `self._amount`, i.e. the constructor argument already rounded by
`dollar(...)` (ceiling to cents). -/
structure Mortgage where
  interest : ℚ
  months : ℤ
  amount : ℚ
deriving DecidableEq

/-- `Mortgage.__init__(interest, months=None, amount=100000, years=None)`
(mortgage.py lines 31-34). -/
def Mortgage.make (interest : ℚ) (months : Option ℚ) (amount : ℚ) (years : Option ℚ) :
    Except InputError Mortgage :=
  match monthsOf months years with
  | Except.error e => Except.error e
  | Except.ok n => Except.ok { interest := interest, months := n, amount := dollar_ceiling amount }

/-- `Mortgage.rate()` (line 37). -/
def Mortgage.rate (m : Mortgage) : ℚ := m.interest

/-- `Mortgage.month_growth()` = `1 + interest / 12` (line 40). -/
def Mortgage.month_growth (m : Mortgage) : ℚ := 1 + m.interest / 12

/-- `Mortgage.loan_months()` (line 49). -/
def Mortgage.loan_months (m : Mortgage) : ℤ := m.months

/-- `Mortgage.monthly_payment()` (lines 54-56):
`dollar(amount * rate / (12 * (1 - (1/month_growth) ** loan_months)))`,
ceiling-rounded to cents. -/
def Mortgage.monthly_payment (m : Mortgage) : ℚ :=
  dollar_ceiling (m.amount * m.rate / (12 * (1 - (1 / m.month_growth) ^ m.months)))

/-- `Mortgage.total_value(m_payment)` (lines 58-60). -/
def Mortgage.total_value (m : Mortgage) (m_payment : ℚ) : ℚ :=
  m_payment / m.rate * (12 * (1 - (1 / m.month_growth) ^ m.months))

/-- `Mortgage.annual_payment()` = `monthly_payment() * 12` (lines 62-63). -/
def Mortgage.annual_payment (m : Mortgage) : ℚ := m.monthly_payment * 12

/-- `Mortgage.total_payout(months, years, inflation)` with the horizon
already resolved to `mMonths` months and with `inflation = 0` (the default):
the code returns `monthly_payment() * m_months` (line 77). -/
def Mortgage.total_payout (m : Mortgage) (mMonths : ℤ) : ℚ :=
  m.monthly_payment * mMonths

/-- The `inflation != 0` branch of `total_payout` (line 75):
`float(monthly_payment()) * f * (1 - f**m_months) / (1 - f)` where
`f = (1+inflation)**(-1.0/12)` is the monthly discount factor.  The factor
is an irrational real for the inputs of interest, so it is passed here as a
parameter `f`; callers instantiate it with the exact real value when that
value is rational. -/
def Mortgage.total_payout_infl (m : Mortgage) (mMonths : ℤ) (f : ℚ) : ℚ :=
  m.monthly_payment * f * (1 - f ^ mMonths) / (1 - f)

/-- `Mortgage.balance(months, years, inflation)` (lines 99-115) with the
horizon resolved to `mMonths` and `inflation = 0` (so the final
present-value division is skipped):
`dollar(amount * growth**m - monthly_payment * (1 - growth**m)/(1 - growth))`,
ceiling-rounded to cents by the trailing `dollar(...)`. -/
def Mortgage.balance (m : Mortgage) (mMonths : ℤ) : ℚ :=
  dollar_ceiling (m.amount * m.month_growth ^ mMonths -
    m.monthly_payment * (1 - m.month_growth ^ mMonths) / (1 - m.month_growth))

/-- `Mortgage.total_cost(months, years, inflation)` (lines 80-97) with the
horizon resolved to `mMonths` and `inflation = 0`:
`dollar(total_payout(m_months)) - (amount - balance(m_months))`. -/
def Mortgage.total_cost (m : Mortgage) (mMonths : ℤ) : ℚ :=
  dollar_ceiling (m.total_payout mMonths) - (m.amount - m.balance mMonths)

/-- `Mortgage.total_payout` with its real optional-argument interface
(lines 65-70): when both `months` and `years` are `None` the horizon
defaults to `loan_months()`; otherwise it goes through `__months`, which can
raise `InputError`.  Inflation is the default `0`. -/
def Mortgage.total_payoutE (m : Mortgage) (months years : Option ℚ) : Except InputError ℚ :=
  match months, years with
  | none, none => Except.ok (m.total_payout m.months)
  | mo, yr =>
    match monthsOf mo yr with
    | Except.error e => Except.error e
    | Except.ok n => Except.ok (m.total_payout n)

/-- `Mortgage.total_cost` with its real optional-argument interface
(lines 90-93): same defaulting as `total_payoutE`.  Inflation is the
default `0`. -/
def Mortgage.total_costE (m : Mortgage) (months years : Option ℚ) : Except InputError ℚ :=
  match months, years with
  | none, none => Except.ok (m.total_cost m.months)
  | mo, yr =>
    match monthsOf mo yr with
    | Except.error e => Except.error e
    | Except.ok n => Except.ok (m.total_cost n)

/-- `Mortgage.balance` with its real optional-argument interface
(line 105): `m_months = self.__months(months, years)` with NO defaulting,
so calling it with neither argument raises `InputError`. Inflation is the
default `0`. -/
def Mortgage.balanceE (m : Mortgage) (months years : Option ℚ) : Except InputError ℚ :=
  match monthsOf months years with
  | Except.error e => Except.error e
  | Except.ok n => Except.ok (m.balance n)

/-- `e` is a raised `InputError`. -/
def raisesInputError {α : Type} (e : Except InputError α) : Prop :=
  ∃ err, e = Except.error err

/-- The interest charge of one schedule period (mortgage.py lines 122-123):
`dollar(balance * rate * Decimal(1)/MONTHS_IN_YEAR, round=ROUND_HALF_UP)`
where `rate` is the 6-digit-quantized annual rate fixed at schedule start. -/
def schedule_interest (rate6 balance : ℚ) : ℚ :=
  dollar_half_up (balance * rate6 * 1 / 12)

/-- One iteration of the `while True` loop of `monthly_payment_schedule`
(lines 121-129): either the final yield `(balance, interest)` followed by
`break`, or a regular yield `(monthly - interest, interest)` together with
the updated running balance. -/
inductive SchedStep where
  | last (pair : ℚ × ℚ) : SchedStep
  | next (pair : ℚ × ℚ) (balance : ℚ) : SchedStep
deriving DecidableEq

/-- One iteration of the schedule loop, transcribed from lines 122-129. -/
def schedule_step (monthly rate6 balance : ℚ) : SchedStep :=
  let interest := schedule_interest rate6 balance
  if monthly ≥ balance + interest then SchedStep.last (balance, interest)
  else SchedStep.next (monthly - interest, interest) (balance - (monthly - interest))

/-- The schedule generator run with `fuel` loop iterations allowed: `some`
of the full yielded list if the loop breaks within `fuel` iterations,
`none` otherwise. -/
def schedule_aux (monthly rate6 : ℚ) : ℕ → ℚ → Option (List (ℚ × ℚ))
  | 0, _ => none
  | fuel + 1, balance =>
    match schedule_step monthly rate6 balance with
    | SchedStep.last p => some [p]
    | SchedStep.next p b => (schedule_aux monthly rate6 fuel b).map (fun rest => p :: rest)

/-- `Mortgage.monthly_payment_schedule()` (lines 117-129) run with the given
fuel: `monthly = monthly_payment()`, `balance = dollar(amount())`,
`rate = Decimal(str(rate())).quantize(Decimal('.000001'))`. -/
def Mortgage.schedule (m : Mortgage) (fuel : ℕ) : Option (List (ℚ × ℚ)) :=
  schedule_aux m.monthly_payment (quantize6 m.rate) fuel (dollar_ceiling m.amount)

/-- The first pair yielded by `monthly_payment_schedule()` (both branches of
the loop body yield a pair, so the first pair is total). -/
def Mortgage.first_pair (m : Mortgage) : ℚ × ℚ :=
  match schedule_step m.monthly_payment (quantize6 m.rate) (dollar_ceiling m.amount) with
  | SchedStep.last p => p
  | SchedStep.next p _ => p

/-- The generator `monthly_payment_schedule()` never terminates: no amount
of fuel completes it. -/
def Mortgage.schedule_diverges (m : Mortgage) : Prop :=
  ∀ fuel, m.schedule fuel = none

/-- The monthly rate exactly as claim C1 words it: "the annual rate divided
by 12 rounded to 6 decimal digits" (rounding applied to the monthly
quotient).  This follows the specification text; the code instead quantizes
the ANNUAL rate to 6 digits and then divides by 12. -/
def spec_monthly_rate (annual : ℚ) : ℚ := quantize6 (annual / 12)

/-- The per-step contract of the schedule, written from the (amended) claim
C1: with level payment `monthly` and fixed monthly rate `mrate`, a yielded
list starting from a given balance consists of periods whose interest is
`round_half_up_2(balance * mrate)`; a final period yields
`(balance, interest)` exactly when `monthly >= balance + interest`, and
every other period yields `(monthly - interest, interest)` and reduces the
balance by the principal portion. -/
inductive ScheduleOK (monthly mrate : ℚ) : ℚ → List (ℚ × ℚ) → Prop where
  | last (b i : ℚ) : i = dollar_half_up (b * mrate) → monthly ≥ b + i →
      ScheduleOK monthly mrate b [(b, i)]
  | step (b i : ℚ) (rest : List (ℚ × ℚ)) : i = dollar_half_up (b * mrate) →
      ¬ monthly ≥ b + i → ScheduleOK monthly mrate (b - (monthly - i)) rest →
      ScheduleOK monthly mrate b ((monthly - i, i) :: rest)

/-- Would the Python evaluation of `monthly_payment()` (lines 54-56) raise
`ZeroDivisionError`?  Its divisions are `1./month_growth()` and the division
by `12 * (1 - (1/month_growth)**loan_months)`. -/
def Mortgage.monthly_payment_div_zero (m : Mortgage) : Prop :=
  m.month_growth = 0 ∨ 12 * (1 - (1 / m.month_growth) ^ m.months) = 0

/-- Would the Python evaluation of `total_value(m_payment)` (lines 58-60)
raise `ZeroDivisionError`?  Its divisions are `m_payment / rate()` and
`1./month_growth()`. -/
def Mortgage.total_value_div_zero (m : Mortgage) : Prop :=
  m.rate = 0 ∨ m.month_growth = 0

/-- Would the Python evaluation of `total_payout(..., inflation)`
(lines 65-78) raise `ZeroDivisionError`?  In evaluation order:
`monthly_factor = (1+inflation)**(-1.0/12)` raises exactly when
`1 + inflation = 0` (Python: `0.0 ** negative` raises); both branches call
`monthly_payment()`; and the `inflation != 0` branch divides by
`1 - monthly_factor`, which vanishes exactly when the factor equals 1 —
for a positive base `(1+inflation)**(-1/12) = 1` iff `1 + inflation = 1`
(real `rpow` is injective on positives), and for a negative base the value
is a non-real complex number, never 1. -/
def Mortgage.total_payout_div_zero (m : Mortgage) (inflation : ℚ) : Prop :=
  1 + inflation = 0 ∨ m.monthly_payment_div_zero ∨ (inflation ≠ 0 ∧ 1 + inflation = 1)

/-- Would the Python evaluation of `balance(mMonths, inflation)`
(lines 99-115) raise `ZeroDivisionError`?  It calls `monthly_payment()`,
divides by `1 - month_growth()`, and, when `inflation != 0`, divides by
`(1+inflation)**(m_months/12)`; with `1 + inflation = 0` that power is `0`
for positive exponent (division by zero) and itself raises for negative
exponent, while for `m_months = 0` it is `0.0 ** 0.0 = 1.0`. -/
def Mortgage.balance_div_zero (m : Mortgage) (mMonths : ℤ) (inflation : ℚ) : Prop :=
  m.monthly_payment_div_zero ∨ 1 - m.month_growth = 0 ∨
    (inflation ≠ 0 ∧ 1 + inflation = 0 ∧ mMonths ≠ 0)

/-- Would the Python evaluation of `total_cost(mMonths, inflation)`
(lines 80-97) raise `ZeroDivisionError`?  It calls `total_payout` and
`balance`. -/
def Mortgage.total_cost_div_zero (m : Mortgage) (mMonths : ℤ) (inflation : ℚ) : Prop :=
  m.total_payout_div_zero inflation ∨ m.balance_div_zero mMonths inflation

/-- Would the Python evaluation of one step of `monthly_payment_schedule()`
raise `ZeroDivisionError`?  It calls `monthly_payment()`; its own divisions
are by the nonzero constant `MONTHS_IN_YEAR = 12`. -/
def Mortgage.schedule_div_zero (m : Mortgage) : Prop :=
  m.monthly_payment_div_zero

/-- The concrete loan of claim C2: rate 0.06, 360 months, principal
100000 (`dollar(100000) = 100000.00`). -/
def m360 : Mortgage := { interest := 6/100, months := 360, amount := 100000 }

/-- A small loan used as witness input: rate 0.06, 1 month, principal 100. -/
def m1 : Mortgage := { interest := 6/100, months := 1, amount := 100 }

/-- A loan on which the schedule generator loops forever: rate 0.06,
2400 months, principal 99999.  Its ceiling-rounded payment is exactly
500.00 while the first period interest `round_half_up(99999 * 0.06/12) =
round_half_up(499.995)` is also 500.00, so the principal portion is 0.00
and the running balance never changes. -/
def stuck1 : Mortgage := { interest := 6/100, months := 2400, amount := 99999 }

/-- A second non-terminating loan: rate 1.2 (120% annual), 240 months,
principal 50.05.  Payment = 5.01 = first period interest
`round_half_up(50.05 * 1.2/12) = round_half_up(5.005)`, so the principal
portion is 0.00 forever. -/
def stuck2 : Mortgage := { interest := 12/10, months := 240, amount := 5005/100 }

/-- The loan exhibiting the difference between quantizing the annual rate
(what the code does) and quantizing the monthly rate (what claim C1 says):
annual rate 0.0612345678, 360 months, principal 100000. -/
def mC1 : Mortgage := { interest := 612345678/10000000000, months := 360, amount := 100000 }

/-! ## Basic lemmas about cents and the rounding primitives -/

lemma isCents_iff (q : ℚ) : isCents q ↔ ∃ z : ℤ, q = (z : ℚ) / 100 := by
  unfold isCents
  constructor
  · intro h
    refine ⟨(100 * q).num, ?_⟩
    have h2 : (((100 * q).num : ℚ)) = 100 * q := (Rat.den_eq_one_iff _).mp h
    rw [h2]
    ring
  · rintro ⟨z, rfl⟩
    have h : (100 : ℚ) * ((z : ℚ) / 100) = (z : ℚ) := by ring
    rw [h, Rat.den_intCast]

lemma isCents_div_100 (z : ℤ) : isCents ((z : ℚ) / 100) :=
  (isCents_iff _).mpr ⟨z, rfl⟩

lemma dollar_ceiling_isCents (x : ℚ) : isCents (dollar_ceiling x) :=
  isCents_div_100 _

lemma dollar_half_up_isCents (x : ℚ) : isCents (dollar_half_up x) :=
  isCents_div_100 _

lemma isCents_sub {a b : ℚ} (ha : isCents a) (hb : isCents b) : isCents (a - b) := by
  obtain ⟨x, rfl⟩ := (isCents_iff a).mp ha
  obtain ⟨y, rfl⟩ := (isCents_iff b).mp hb
  refine (isCents_iff _).mpr ⟨x - y, ?_⟩
  push_cast
  ring

lemma isCents_add {a b : ℚ} (ha : isCents a) (hb : isCents b) : isCents (a + b) := by
  obtain ⟨x, rfl⟩ := (isCents_iff a).mp ha
  obtain ⟨y, rfl⟩ := (isCents_iff b).mp hb
  refine (isCents_iff _).mpr ⟨x + y, ?_⟩
  push_cast
  ring

lemma isCents_mul_int {a : ℚ} (z : ℤ) (ha : isCents a) : isCents (a * (z : ℚ)) := by
  obtain ⟨x, rfl⟩ := (isCents_iff a).mp ha
  refine (isCents_iff _).mpr ⟨x * z, ?_⟩
  push_cast
  ring

lemma dollar_ceiling_of_isCents {x : ℚ} (hx : isCents x) : dollar_ceiling x = x := by
  obtain ⟨z, rfl⟩ := (isCents_iff x).mp hx
  unfold dollar_ceiling
  have h : ((z : ℚ) / 100) * 100 = (z : ℚ) := by field_simp
  rw [h, Int.ceil_intCast]

lemma isCents_gap {a b : ℚ} (ha : isCents a) (hb : isCents b) (h : a < b) :
    a + 1/100 ≤ b := by
  obtain ⟨x, rfl⟩ := (isCents_iff a).mp ha
  obtain ⟨y, rfl⟩ := (isCents_iff b).mp hb
  have hxy : x < y := by
    by_contra hc
    push_neg at hc
    have : (y : ℚ) ≤ (x : ℚ) := by exact_mod_cast hc
    have : (y : ℚ) / 100 ≤ (x : ℚ) / 100 := by linarith
    linarith
  have hxy1 : x + 1 ≤ y := hxy
  have : ((x : ℚ) + 1) ≤ (y : ℚ) := by exact_mod_cast hxy1
  have : ((x : ℚ) + 1) / 100 ≤ (y : ℚ) / 100 := by linarith
  linarith [this]

lemma roundHalfUp_nonneg {x : ℚ} (h : 0 ≤ x) : 0 ≤ roundHalfUp x := by
  unfold roundHalfUp
  rw [if_pos h]
  exact Int.floor_nonneg.mpr (by linarith)

lemma roundHalfUp_mono {x y : ℚ} (h : x ≤ y) : roundHalfUp x ≤ roundHalfUp y := by
  unfold roundHalfUp
  by_cases hx : 0 ≤ x
  · rw [if_pos hx, if_pos (le_trans hx h)]
    exact Int.floor_mono (by linarith)
  · rw [if_neg hx]
    by_cases hy : 0 ≤ y
    · rw [if_pos hy]
      have h1 : 0 ≤ ⌊y + 1/2⌋ := Int.floor_nonneg.mpr (by linarith)
      have h2 : 0 ≤ ⌊-x + 1/2⌋ := Int.floor_nonneg.mpr (by push_neg at hx; linarith)
      omega
    · rw [if_neg hy]
      have : ⌊-y + 1/2⌋ ≤ ⌊-x + 1/2⌋ := Int.floor_mono (by linarith)
      omega

lemma dollar_half_up_nonneg {x : ℚ} (h : 0 ≤ x) : 0 ≤ dollar_half_up x := by
  unfold dollar_half_up
  have : (0 : ℤ) ≤ roundHalfUp (x * 100) := roundHalfUp_nonneg (by positivity)
  positivity

lemma dollar_half_up_mono {x y : ℚ} (h : x ≤ y) : dollar_half_up x ≤ dollar_half_up y := by
  unfold dollar_half_up
  have h1 : roundHalfUp (x * 100) ≤ roundHalfUp (y * 100) := roundHalfUp_mono (by linarith)
  have h2 : ((roundHalfUp (x * 100) : ℤ) : ℚ) ≤ ((roundHalfUp (y * 100) : ℤ) : ℚ) := by
    exact_mod_cast h1
  linarith

lemma roundHalfEven_nonneg {x : ℚ} (h : 0 ≤ x) : 0 ≤ roundHalfEven x := by
  unfold roundHalfEven
  have hf : (0 : ℤ) ≤ ⌊x⌋ := Int.floor_nonneg.mpr h
  split
  · omega
  · split
    · omega
    · split <;> omega

lemma quantize6_nonneg {x : ℚ} (h : 0 ≤ x) : 0 ≤ quantize6 x := by
  unfold quantize6
  have : (0 : ℤ) ≤ roundHalfEven (x * 1000000) := roundHalfEven_nonneg (by positivity)
  positivity

lemma schedule_interest_nonneg {rate6 b : ℚ} (hr : 0 ≤ rate6) (hb : 0 ≤ b) :
    0 ≤ schedule_interest rate6 b := by
  unfold schedule_interest
  exact dollar_half_up_nonneg (by positivity)

lemma schedule_interest_mono {rate6 b b' : ℚ} (hr : 0 ≤ rate6) (h : b ≤ b') :
    schedule_interest rate6 b ≤ schedule_interest rate6 b' := by
  unfold schedule_interest
  apply dollar_half_up_mono
  have hbb : b * rate6 ≤ b' * rate6 := mul_le_mul_of_nonneg_right h hr
  linarith

lemma schedule_interest_isCents (rate6 b : ℚ) : isCents (schedule_interest rate6 b) :=
  dollar_half_up_isCents _

/-! ## Evaluation lemmas for the rounding primitives -/

lemma dollar_ceiling_eq (q : ℚ) (z : ℤ) (h1 : (z:ℚ) - 1 < 100 * q) (h2 : 100 * q ≤ (z:ℚ)) :
    dollar_ceiling q = (z:ℚ)/100 := by
  unfold dollar_ceiling
  rw [mul_comm q 100, Int.ceil_eq_iff.mpr ⟨h1, h2⟩]

lemma dollar_half_up_eq (q : ℚ) (z : ℤ) (h0 : 0 ≤ q) (h1 : (z:ℚ) ≤ 100 * q + 1/2)
    (h2 : 100 * q + 1/2 < (z:ℚ) + 1) : dollar_half_up q = (z:ℚ)/100 := by
  unfold dollar_half_up roundHalfUp
  rw [if_pos (by positivity : (0:ℚ) ≤ q * 100)]
  rw [show q * 100 + 1/2 = 100 * q + 1/2 by ring]
  rw [Int.floor_eq_iff.mpr ⟨h1, h2⟩]

lemma schedule_step_last {monthly rate6 B : ℚ}
    (h : monthly ≥ B + schedule_interest rate6 B) :
    schedule_step monthly rate6 B = SchedStep.last (B, schedule_interest rate6 B) := by
  simp only [schedule_step]
  rw [if_pos h]

lemma schedule_step_next {monthly rate6 B : ℚ}
    (h : ¬ monthly ≥ B + schedule_interest rate6 B) :
    schedule_step monthly rate6 B =
      SchedStep.next (monthly - schedule_interest rate6 B, schedule_interest rate6 B)
        (B - (monthly - schedule_interest rate6 B)) := by
  simp only [schedule_step]
  rw [if_neg h]

lemma schedule_aux_succ (monthly rate6 B : ℚ) (n : ℕ) :
    schedule_aux monthly rate6 (n+1) B =
      match schedule_step monthly rate6 B with
      | SchedStep.last p => some [p]
      | SchedStep.next p b => (schedule_aux monthly rate6 n b).map (fun rest => p :: rest) :=
  rfl

/-- If one loop iteration yields a zero principal portion (and does not
terminate), the balance never changes and the generator never finishes. -/
lemma diverges_of_zero_principal {monthly rate6 B : ℚ}
    (hnot : ¬ monthly ≥ B + schedule_interest rate6 B)
    (hzero : monthly - schedule_interest rate6 B = 0) :
    ∀ fuel, schedule_aux monthly rate6 fuel B = none := by
  intro fuel
  induction fuel with
  | zero => rfl
  | succ n ih =>
    rw [schedule_aux_succ, schedule_step_next hnot]
    simp only [hzero, sub_zero, ih, Option.map_none']

/-! ## Concrete evaluations at the loans used in the claims -/

lemma quantize6_006 : quantize6 (6/100) = 6/100 := by
  unfold quantize6 roundHalfEven
  norm_num

lemma quantize6_12 : quantize6 (12/10) = 12/10 := by
  unfold quantize6 roundHalfEven
  norm_num

lemma quantize6_mC1rate : quantize6 (612345678/10000000000) = 61235/1000000 := by
  unfold quantize6 roundHalfEven
  norm_num

lemma spec_monthly_rate_mC1rate :
    spec_monthly_rate (612345678/10000000000) = 5103/1000000 := by
  unfold spec_monthly_rate quantize6 roundHalfEven
  norm_num

lemma dollar_ceiling_100000 : dollar_ceiling 100000 = 100000 := by
  rw [dollar_ceiling_eq 100000 10000000 (by norm_num) (by norm_num)]
  norm_num

lemma dollar_ceiling_99999 : dollar_ceiling 99999 = 99999 := by
  rw [dollar_ceiling_eq 99999 9999900 (by norm_num) (by norm_num)]
  norm_num

lemma dollar_ceiling_100 : dollar_ceiling 100 = 100 := by
  rw [dollar_ceiling_eq 100 10000 (by norm_num) (by norm_num)]
  norm_num

lemma dollar_ceiling_5005 : dollar_ceiling (5005/100) = 5005/100 := by
  rw [dollar_ceiling_eq (5005/100) 5005 (by norm_num) (by norm_num)]
  norm_num

lemma pay_formula_360 : ∀ q : ℚ, (1991:ℚ)/11991 < q → q ≤ 2489/14989 →
    dollar_ceiling (100000 * (6/100) / (12 * (1 - q))) = 59956/100 := by
  intro q hlo hhi
  have hpos : (0:ℚ) < 1 - q := by linarith
  have hrw : (100:ℚ) * (100000 * (6/100) / (12 * (1 - q))) = 600000 / (12 * (1 - q)) := by
    ring
  have h1 : ((59956:ℤ):ℚ) - 1 < 100 * (100000 * (6/100) / (12 * (1 - q))) := by
    rw [hrw, lt_div_iff₀ (by linarith)]
    push_cast
    nlinarith
  have h2 : 100 * (100000 * (6/100) / (12 * (1 - q))) ≤ ((59956:ℤ):ℚ) := by
    rw [hrw, div_le_iff₀ (by linarith)]
    push_cast
    nlinarith
  rw [dollar_ceiling_eq _ 59956 h1 h2]
  norm_num

lemma pay_formula_2400 : ∀ q : ℚ, 0 < q → q ≤ 1/100000 →
    dollar_ceiling (99999 * (6/100) / (12 * (1 - q))) = 500 := by
  intro q hlo hhi
  have hpos : (0:ℚ) < 1 - q := by linarith
  have hrw : (100:ℚ) * (99999 * (6/100) / (12 * (1 - q))) = 599994 / (12 * (1 - q)) := by
    ring
  have h1 : ((50000:ℤ):ℚ) - 1 < 100 * (99999 * (6/100) / (12 * (1 - q))) := by
    rw [hrw, lt_div_iff₀ (by linarith)]
    push_cast
    nlinarith
  have h2 : 100 * (99999 * (6/100) / (12 * (1 - q))) ≤ ((50000:ℤ):ℚ) := by
    rw [hrw, div_le_iff₀ (by linarith)]
    push_cast
    nlinarith
  rw [dollar_ceiling_eq _ 50000 h1 h2]
  norm_num

lemma pay_formula_240 : ∀ q : ℚ, 0 < q → q ≤ 1/2000 →
    dollar_ceiling (5005/100 * (12/10) / (12 * (1 - q))) = 501/100 := by
  intro q hlo hhi
  have hpos : (0:ℚ) < 1 - q := by linarith
  have hrw : (100:ℚ) * (5005/100 * (12/10) / (12 * (1 - q))) = 6006 / (12 * (1 - q)) := by
    ring
  have h1 : ((501:ℤ):ℚ) - 1 < 100 * (5005/100 * (12/10) / (12 * (1 - q))) := by
    rw [hrw, lt_div_iff₀ (by linarith)]
    push_cast
    nlinarith
  have h2 : 100 * (5005/100 * (12/10) / (12 * (1 - q))) ≤ ((501:ℤ):ℚ) := by
    rw [hrw, div_le_iff₀ (by linarith)]
    push_cast
    nlinarith
  rw [dollar_ceiling_eq _ 501 h1 h2]
  norm_num

lemma m360_payment : m360.monthly_payment = 59956/100 := by
  simp only [Mortgage.monthly_payment, Mortgage.rate, Mortgage.month_growth, m360]
  have hg : (1/(1 + (6/100:ℚ)/12)) = 200/201 := by norm_num
  rw [hg, show ((360:ℤ)) = ((360:ℕ):ℤ) from rfl, zpow_natCast]
  exact pay_formula_360 _ (by norm_num) (by norm_num)

lemma stuck1_payment : stuck1.monthly_payment = 500 := by
  simp only [Mortgage.monthly_payment, Mortgage.rate, Mortgage.month_growth, stuck1]
  have hg : (1/(1 + (6/100:ℚ)/12)) = 200/201 := by norm_num
  rw [hg, show ((2400:ℤ)) = ((2400:ℕ):ℤ) from rfl, zpow_natCast]
  exact pay_formula_2400 _ (by positivity) (by norm_num)

lemma stuck2_payment : stuck2.monthly_payment = 501/100 := by
  simp only [Mortgage.monthly_payment, Mortgage.rate, Mortgage.month_growth, stuck2]
  have hg : (1/(1 + (12/10:ℚ)/12)) = 10/11 := by norm_num
  rw [hg, show ((240:ℤ)) = ((240:ℕ):ℤ) from rfl, zpow_natCast]
  exact pay_formula_240 _ (by positivity) (by norm_num)

lemma m1_payment : m1.monthly_payment = 201/2 := by
  simp only [Mortgage.monthly_payment, Mortgage.rate, Mortgage.month_growth, m1]
  have hg : (1/(1 + (6/100:ℚ)/12)) = 200/201 := by norm_num
  rw [hg, zpow_one]
  rw [dollar_ceiling_eq _ 10050 (by norm_num) (by norm_num)]
  norm_num

lemma interest_006_99999 : schedule_interest (6/100) 99999 = 500 := by
  unfold schedule_interest
  rw [dollar_half_up_eq _ 50000 (by norm_num) (by norm_num) (by norm_num)]
  norm_num

lemma interest_12_5005 : schedule_interest (12/10) (5005/100) = 501/100 := by
  unfold schedule_interest
  rw [dollar_half_up_eq _ 501 (by norm_num) (by norm_num) (by norm_num)]
  norm_num

lemma interest_006_100000 : schedule_interest (6/100) 100000 = 500 := by
  unfold schedule_interest
  rw [dollar_half_up_eq _ 50000 (by norm_num) (by norm_num) (by norm_num)]
  norm_num

lemma interest_61235_100000 : schedule_interest (61235/1000000) 100000 = 51029/100 := by
  unfold schedule_interest
  rw [dollar_half_up_eq _ 51029 (by norm_num) (by norm_num) (by norm_num)]
  norm_num

lemma interest_5103_100000 : dollar_half_up ((100000 : ℚ) * (5103/1000000)) = 51030/100 := by
  rw [dollar_half_up_eq _ 51030 (by norm_num) (by norm_num) (by norm_num)]
  norm_num

lemma interest_006_100 : schedule_interest (6/100) 100 = 1/2 := by
  unfold schedule_interest
  rw [dollar_half_up_eq _ 50 (by norm_num) (by norm_num) (by norm_num)]
  norm_num

lemma Mortgage.monthly_payment_isCents (m : Mortgage) : isCents m.monthly_payment :=
  dollar_ceiling_isCents _

lemma Mortgage.total_payout_isCents (m : Mortgage) (mMonths : ℤ) :
    isCents (m.total_payout mMonths) :=
  isCents_mul_int mMonths (m.monthly_payment_isCents)

/-- The interest component of the first yielded pair equals the first-step
interest charge, whichever branch the first loop iteration takes. -/
lemma Mortgage.first_pair_interest (m : Mortgage) :
    m.first_pair.2 = schedule_interest (quantize6 m.rate) (dollar_ceiling m.amount) := by
  unfold Mortgage.first_pair
  by_cases hc : m.monthly_payment ≥
      dollar_ceiling m.amount + schedule_interest (quantize6 m.rate) (dollar_ceiling m.amount)
  · rw [schedule_step_last hc]
  · rw [schedule_step_next hc]

/-! ## Structural lemmas about complete schedule runs -/

lemma schedule_aux_sum (monthly rate6 : ℚ) :
    ∀ (n : ℕ) (B : ℚ) (L : List (ℚ × ℚ)),
      schedule_aux monthly rate6 n B = some L → (L.map Prod.fst).sum = B := by
  intro n
  induction n with
  | zero =>
    intro B L h
    exact Option.noConfusion h
  | succ k ih =>
    intro B L h
    rw [schedule_aux_succ] at h
    by_cases hc : monthly ≥ B + schedule_interest rate6 B
    · rw [schedule_step_last hc, Option.some_inj] at h
      subst h
      simp
    · rw [schedule_step_next hc] at h
      simp only [Option.map_eq_some'] at h
      obtain ⟨rest, heq, hL⟩ := h
      subst hL
      have hsum := ih _ _ heq
      simp only [List.map_cons, List.sum_cons, hsum]
      ring

lemma schedule_aux_last (monthly rate6 : ℚ) (hr : 0 ≤ rate6) :
    ∀ (n : ℕ) (B : ℚ) (L : List (ℚ × ℚ)), 0 < B →
      schedule_aux monthly rate6 n B = some L →
      ∃ p : ℚ × ℚ, L.getLast? = some p ∧ p.1 ≤ monthly := by
  intro n
  induction n with
  | zero =>
    intro B L _ h
    exact Option.noConfusion h
  | succ k ih =>
    intro B L hB h
    rw [schedule_aux_succ] at h
    by_cases hc : monthly ≥ B + schedule_interest rate6 B
    · rw [schedule_step_last hc, Option.some_inj] at h
      subst h
      refine ⟨(B, schedule_interest rate6 B), rfl, ?_⟩
      have hI : 0 ≤ schedule_interest rate6 B := schedule_interest_nonneg hr (le_of_lt hB)
      simp only []
      linarith
    · rw [schedule_step_next hc] at h
      simp only [Option.map_eq_some'] at h
      obtain ⟨rest, heq, hL⟩ := h
      subst hL
      push_neg at hc
      have hB' : 0 < B - (monthly - schedule_interest rate6 B) := by linarith
      obtain ⟨p, hp, hple⟩ := ih _ _ hB' heq
      refine ⟨p, ?_, hple⟩
      cases rest with
      | nil => exact Option.noConfusion hp
      | cons b t => rw [List.getLast?_cons_cons]; exact hp

lemma schedule_aux_pairs_cents (monthly rate6 : ℚ) (hm : isCents monthly) :
    ∀ (n : ℕ) (B : ℚ) (L : List (ℚ × ℚ)), isCents B →
      schedule_aux monthly rate6 n B = some L →
      ∀ p ∈ L, isCents p.1 ∧ isCents p.2 := by
  intro n
  induction n with
  | zero =>
    intro B L _ h
    exact Option.noConfusion h
  | succ k ih =>
    intro B L hBc h
    rw [schedule_aux_succ] at h
    by_cases hc : monthly ≥ B + schedule_interest rate6 B
    · rw [schedule_step_last hc, Option.some_inj] at h
      subst h
      intro p hp
      simp only [List.mem_singleton] at hp
      subst hp
      exact ⟨hBc, schedule_interest_isCents _ _⟩
    · rw [schedule_step_next hc] at h
      simp only [Option.map_eq_some'] at h
      obtain ⟨rest, heq, hL⟩ := h
      subst hL
      have hIc : isCents (schedule_interest rate6 B) := schedule_interest_isCents _ _
      have hB'c : isCents (B - (monthly - schedule_interest rate6 B)) :=
        isCents_sub hBc (isCents_sub hm hIc)
      intro p hp
      rcases List.mem_cons.mp hp with hp1 | hp2
      · subst hp1
        exact ⟨isCents_sub hm hIc, hIc⟩
      · exact ih _ _ hB'c heq p hp2

lemma schedule_aux_ok (monthly rate6 : ℚ) :
    ∀ (n : ℕ) (B : ℚ) (L : List (ℚ × ℚ)),
      schedule_aux monthly rate6 n B = some L →
      ScheduleOK monthly (rate6 / 12) B L := by
  intro n
  induction n with
  | zero =>
    intro B L h
    exact Option.noConfusion h
  | succ k ih =>
    intro B L h
    rw [schedule_aux_succ] at h
    by_cases hc : monthly ≥ B + schedule_interest rate6 B
    · rw [schedule_step_last hc, Option.some_inj] at h
      subst h
      refine ScheduleOK.last _ _ ?_ hc
      unfold schedule_interest
      congr 1
      ring
    · rw [schedule_step_next hc] at h
      simp only [Option.map_eq_some'] at h
      obtain ⟨rest, heq, hL⟩ := h
      subst hL
      refine ScheduleOK.step _ _ _ ?_ hc (ih _ _ heq)
      unfold schedule_interest
      congr 1
      ring

/-- Strict decrease plus cents granularity: as long as the loop condition
fails and the first-period interest bound holds, the generator finishes
within fuel exceeding the initial balance in cents. -/
lemma schedule_aux_terminates (monthly rate6 B0 : ℚ) (hr : 0 ≤ rate6)
    (hm : isCents monthly) (hPI : schedule_interest rate6 B0 < monthly) :
    ∀ (n : ℕ) (B : ℚ), isCents B → B ≤ B0 → ((100 * B).num).toNat < n →
      ∃ L, schedule_aux monthly rate6 n B = some L := by
  intro n
  induction n with
  | zero =>
    intro B _ _ hmeas
    omega
  | succ k ih =>
    intro B hBc hBle hmeas
    by_cases hc : monthly ≥ B + schedule_interest rate6 B
    · exact ⟨[(B, schedule_interest rate6 B)],
        by rw [schedule_aux_succ, schedule_step_last hc]⟩
    · have hlt : monthly < B + schedule_interest rate6 B := not_le.mp hc
      have hIle : schedule_interest rate6 B ≤ schedule_interest rate6 B0 :=
        schedule_interest_mono hr hBle
      have hIlt : schedule_interest rate6 B < monthly := lt_of_le_of_lt hIle hPI
      have hIc : isCents (schedule_interest rate6 B) := schedule_interest_isCents _ _
      have hgap : schedule_interest rate6 B + 1/100 ≤ monthly := isCents_gap hIc hm hIlt
      have hB'c : isCents (B - (monthly - schedule_interest rate6 B)) :=
        isCents_sub hBc (isCents_sub hm hIc)
      have hB'pos : 0 < B - (monthly - schedule_interest rate6 B) := by linarith
      have hB'le : B - (monthly - schedule_interest rate6 B) ≤ B0 := by linarith
      have ha : (((100 * B).num : ℤ) : ℚ) = 100 * B := (Rat.den_eq_one_iff _).mp hBc
      have hb : (((100 * (B - (monthly - schedule_interest rate6 B))).num : ℤ) : ℚ) =
          100 * (B - (monthly - schedule_interest rate6 B)) :=
        (Rat.den_eq_one_iff _).mp hB'c
      have h1 : (100 * (B - (monthly - schedule_interest rate6 B))).num ≤ (100 * B).num - 1 := by
        have hq : (((100 * (B - (monthly - schedule_interest rate6 B))).num : ℤ) : ℚ) ≤
            (((100 * B).num : ℤ) : ℚ) - 1 := by
          rw [ha, hb]
          linarith
        exact_mod_cast hq
      have h2 : 0 < (100 * (B - (monthly - schedule_interest rate6 B))).num := by
        have hq : (0:ℚ) < (((100 * (B - (monthly - schedule_interest rate6 B))).num : ℤ) : ℚ) := by
          rw [hb]
          linarith
        exact_mod_cast hq
      have hmeas' : ((100 * (B - (monthly - schedule_interest rate6 B))).num).toNat < k := by
        omega
      obtain ⟨L, hL⟩ := ih _ hB'c hB'le hmeas'
      refine ⟨(monthly - schedule_interest rate6 B, schedule_interest rate6 B) :: L, ?_⟩
      rw [schedule_aux_succ, schedule_step_next hc]
      simp only [hL, Option.map_some']

lemma make_months_some (i a mq : ℚ) (m' : Mortgage)
    (h : Mortgage.make i (some mq) a none = Except.ok m') : m'.months = int_trunc mq := by
  simp only [Mortgage.make, monthsOf] at h
  cases h
  rfl

lemma make_months_years (i a yq : ℚ) (m' : Mortgage)
    (h : Mortgage.make i none a (some yq) = Except.ok m') : m'.months = int_trunc (yq * 12) := by
  simp only [Mortgage.make, monthsOf] at h
  cases h
  rfl

/-! ## Claim theorems -/

/-- Claim C2 (confirmed): for the loan with rate 0.06, 360 months and
principal 100000.00, `monthly_payment()` is exactly 599.56,
`annual_payment()` is exactly 7194.72, and the first pair yielded by
`monthly_payment_schedule()` is principal 99.56, interest 500.00. -/
theorem m360_concrete_values :
    m360.monthly_payment = 59956/100 ∧ m360.annual_payment = 719472/100 ∧
      m360.first_pair = (9956/100, 500) := by
  refine ⟨m360_payment, ?_, ?_⟩
  · unfold Mortgage.annual_payment
    rw [m360_payment]
    norm_num
  · unfold Mortgage.first_pair
    rw [m360_payment, show m360.rate = 6/100 from rfl, quantize6_006,
      show m360.amount = 100000 from rfl, dollar_ceiling_100000]
    rw [schedule_step_next (by rw [interest_006_100000]; norm_num)]
    rw [interest_006_100000]
    norm_num

/-- Claim C5 counterexample: `total_payout` is a term-taking query, yet
calling it with neither `months` nor `years` does not raise `InputError`;
it succeeds with the horizon defaulted to the full term, so the claim as
stated (every term-taking query raises exactly when both or neither are
supplied) is false. -/
theorem total_payout_defaults_without_error :
    ¬ raisesInputError (m360.total_payoutE none none) ∧
      m360.total_payoutE none none = Except.ok (m360.total_payout 360) := by
  constructor
  · rintro ⟨err, h⟩
    exact Except.noConfusion h
  · rfl

/-- Claim C5 (amended): the constructor and `balance()` raise `InputError`
exactly when both of months/years are supplied or neither is; `total_payout`
and `total_cost` raise it exactly when both are supplied (with neither they
default the horizon to the full term). -/
theorem input_error_exactly_when (i a : ℚ) (mo yr : Option ℚ) (m : Mortgage) :
    (raisesInputError (Mortgage.make i mo a yr) ↔
      (mo ≠ none ∧ yr ≠ none) ∨ (mo = none ∧ yr = none)) ∧
    (raisesInputError (m.balanceE mo yr) ↔
      (mo ≠ none ∧ yr ≠ none) ∨ (mo = none ∧ yr = none)) ∧
    (raisesInputError (m.total_payoutE mo yr) ↔ (mo ≠ none ∧ yr ≠ none)) ∧
    (raisesInputError (m.total_costE mo yr) ↔ (mo ≠ none ∧ yr ≠ none)) := by
  cases mo <;> cases yr <;>
    simp [raisesInputError, Mortgage.make, Mortgage.balanceE, Mortgage.total_payoutE,
      Mortgage.total_costE, monthsOf]

/-- Claim C6 counterexample: the months argument 0.5 is positive and the
construction succeeds, but the stored term is `int(0.5) = 0`, not ≥ 1. -/
theorem fractional_months_gives_zero_term :
    0 < (1/2 : ℚ) ∧
    Mortgage.make (6/100) (some (1/2)) 100000 none =
      Except.ok { interest := 6/100, months := 0, amount := dollar_ceiling 100000 } ∧
    ¬ (1 ≤ (0:ℤ)) := by
  refine ⟨by norm_num, ?_, by norm_num⟩
  simp only [Mortgage.make, monthsOf, int_trunc]
  norm_num

/-- Claim C6 (amended): a successfully constructed Mortgage stores
`term_months ≥ 1` provided the months argument is at least 1, resp. the
years argument is at least one twelfth (integer truncation of smaller
positive input yields 0). -/
theorem term_months_ge_one_of_ge_one_input (i a mq yq : ℚ) (m' m'' : Mortgage)
    (hmq : 1 ≤ mq) (hmk : Mortgage.make i (some mq) a none = Except.ok m')
    (hyq : 1 ≤ 12 * yq) (hmk2 : Mortgage.make i none a (some yq) = Except.ok m'') :
    1 ≤ m'.months ∧ 1 ≤ m''.months := by
  constructor
  · rw [make_months_some i a mq m' hmk]
    unfold int_trunc
    rw [if_pos (by linarith)]
    exact Int.le_floor.mpr (by exact_mod_cast hmq)
  · rw [make_months_years i a yq m'' hmk2]
    unfold int_trunc
    rw [if_pos (by linarith)]
    exact Int.le_floor.mpr (by push_cast; linarith)

/-- Witness for the amended C6 at months = 12 resp. years = 1. -/
theorem term_months_ge_one_of_ge_one_input_witness :
    1 ≤ (12:ℚ) ∧ 1 ≤ 12 * (1:ℚ) ∧
    (1 ≤ ({ interest := 6/100, months := 12, amount := dollar_ceiling 100000 } : Mortgage).months ∧
     1 ≤ ({ interest := 6/100, months := 12, amount := dollar_ceiling 100000 } : Mortgage).months) :=
  ⟨by norm_num, by norm_num,
    term_months_ge_one_of_ge_one_input (6/100) 100000 12 1 _ _ (by norm_num)
      (by simp only [Mortgage.make, monthsOf]; norm_num [int_trunc])
      (by norm_num)
      (by simp only [Mortgage.make, monthsOf]; norm_num [int_trunc])⟩

/-- Claim C9 (confirmed): with zero inflation and the default full-term
horizon, `total_cost()` equals `total_payout() - principal + balance(term)`
exactly (the `dollar` re-rounding inside `total_cost` is the identity on a
value that is already a whole number of cents). -/
theorem total_cost_eq_payout_sub_principal_add_balance (m : Mortgage)
    (hr : 0 < m.rate) (hn : 1 ≤ m.months) :
    m.total_cost m.months = m.total_payout m.months - m.amount + m.balance m.months := by
  unfold Mortgage.total_cost
  rw [dollar_ceiling_of_isCents (m.total_payout_isCents m.months)]
  ring

/-- Witness for C9 at the loan m1. -/
theorem total_cost_eq_payout_sub_principal_add_balance_witness :
    0 < m1.rate ∧ 1 ≤ m1.months ∧
    m1.total_cost m1.months = m1.total_payout m1.months - m1.amount + m1.balance m1.months :=
  ⟨by norm_num [m1, Mortgage.rate], by norm_num [m1],
    total_cost_eq_payout_sub_principal_add_balance m1 (by norm_num [m1, Mortgage.rate])
      (by norm_num [m1])⟩

/-- Claim C10 (confirmed): for every constructed loan, `balance()` with
neither months nor years raises `InputError`, while `total_payout()` and
`total_cost()` with neither argument default the horizon to the full term
and succeed. -/
theorem balance_raises_totals_default (m : Mortgage) :
    raisesInputError (m.balanceE none none) ∧
    m.total_payoutE none none = Except.ok (m.total_payout m.months) ∧
    m.total_costE none none = Except.ok (m.total_cost m.months) :=
  ⟨⟨⟨"months or years must be specified"⟩, rfl⟩, rfl, rfl⟩

lemma m1_schedule : m1.schedule 1 = some [(100, 1/2)] := by
  show schedule_aux m1.monthly_payment (quantize6 m1.rate) 1 (dollar_ceiling m1.amount) =
    some [(100, 1/2)]
  rw [m1_payment, show m1.rate = 6/100 from rfl, quantize6_006,
    show m1.amount = 100 from rfl, dollar_ceiling_100]
  rw [show (1:ℕ) = 0 + 1 from rfl, schedule_aux_succ]
  rw [schedule_step_last (by rw [interest_006_100]; norm_num)]
  simp only [interest_006_100]

/-- Claim C7 counterexample: for the (valid) loan m360 and the inflation
argument -1, `total_payout` divides by zero — Python evaluates
`(1 + inflation)**(-1.0/12) = 0.0 ** (negative)` which raises
`ZeroDivisionError` — so the claim that no engine operation can divide by
zero (with InputError the only possible failure) is false. -/
theorem total_payout_div_zero_at_inflation_neg_one :
    0 < m360.rate ∧ 1 ≤ m360.months ∧ m360.total_payout_div_zero (-1) :=
  ⟨by norm_num [m360, Mortgage.rate], by norm_num [m360], Or.inl (by norm_num)⟩

/-- Claim C7 (amended): for every loan with rate > 0 and term ≥ 1, and any
horizon, payment and inflation arguments with inflation > -1, none of
`monthly_payment`, `total_value`, `total_payout`, `balance`, `total_cost`
or the schedule generator performs a division by zero. -/
theorem no_division_by_zero (m : Mortgage) (mMonths : ℤ) (inflation : ℚ)
    (hr : 0 < m.rate) (hn : 1 ≤ m.months) (hi : -1 < inflation) :
    ¬ m.monthly_payment_div_zero ∧ ¬ m.total_value_div_zero ∧
    ¬ m.total_payout_div_zero inflation ∧ ¬ m.balance_div_zero mMonths inflation ∧
    ¬ m.total_cost_div_zero mMonths inflation ∧ ¬ m.schedule_div_zero := by
  have hrate : 0 < m.interest := hr
  have hg : (1:ℚ) < m.month_growth := by
    unfold Mortgage.month_growth
    linarith
  have hg0 : (0:ℚ) < m.month_growth := by linarith
  have hx0 : (0:ℚ) < 1 / m.month_growth := by positivity
  have hx1 : 1 / m.month_growth < 1 := by
    rw [div_lt_one hg0]
    exact hg
  obtain ⟨k, hk⟩ : ∃ k : ℕ, m.months = (k:ℤ) :=
    ⟨m.months.toNat, (Int.toNat_of_nonneg (by omega)).symm⟩
  have hkne : k ≠ 0 := by
    rw [hk] at hn
    omega
  have hpow : (1 / m.month_growth) ^ m.months < 1 := by
    rw [hk, zpow_natCast]
    exact pow_lt_one₀ (le_of_lt hx0) hx1 hkne
  have hmp : ¬ m.monthly_payment_div_zero := by
    unfold Mortgage.monthly_payment_div_zero
    push_neg
    refine ⟨ne_of_gt hg0, ?_⟩
    intro h
    rcases mul_eq_zero.mp h with h12 | hxx
    · norm_num at h12
    · have hone : (1 / m.month_growth) ^ m.months = 1 := by linarith
      linarith [hpow]
  have htv : ¬ m.total_value_div_zero := by
    unfold Mortgage.total_value_div_zero
    push_neg
    exact ⟨ne_of_gt hrate, ne_of_gt hg0⟩
  have htp : ¬ m.total_payout_div_zero inflation := by
    unfold Mortgage.total_payout_div_zero
    push_neg
    refine ⟨by intro h; linarith, hmp, ?_⟩
    intro hne heq
    exact hne (by linarith)
  have hb : ¬ m.balance_div_zero mMonths inflation := by
    unfold Mortgage.balance_div_zero
    push_neg
    refine ⟨hmp, ?_, ?_⟩
    · intro h
      unfold Mortgage.month_growth at h
      have : m.interest = 0 := by linarith
      linarith
    · intro hne heq
      exact absurd heq (by intro h; linarith)
  refine ⟨hmp, htv, htp, hb, ?_, hmp⟩
  unfold Mortgage.total_cost_div_zero
  push_neg
  exact ⟨htp, hb⟩

/-- Witness for the amended C7 at the loan m1, horizon 1, inflation 0. -/
theorem no_division_by_zero_witness :
    0 < m1.rate ∧ 1 ≤ m1.months ∧ (-1 : ℚ) < 0 ∧
    (¬ m1.monthly_payment_div_zero ∧ ¬ m1.total_value_div_zero ∧
     ¬ m1.total_payout_div_zero 0 ∧ ¬ m1.balance_div_zero 1 0 ∧
     ¬ m1.total_cost_div_zero 1 0 ∧ ¬ m1.schedule_div_zero) :=
  ⟨by norm_num [m1, Mortgage.rate], by norm_num [m1], by norm_num,
    no_division_by_zero m1 1 0 (by norm_num [m1, Mortgage.rate]) (by norm_num [m1])
      (by norm_num)⟩

/-- Claim C1 counterexample: for the loan with annual rate 0.0612345678 the
code's first-step interest is `round_half_up(100000 * 0.061235 / 12) =
510.29` (the code quantizes the ANNUAL rate to 6 digits and then divides by
12), whereas the claim's `monthly_rate` — the annual rate divided by 12,
rounded to 6 decimal digits, i.e. `round6(0.00510288065) = 0.005103` —
gives `round_half_up(100000 * 0.005103) = 510.30`.  So the interest the
schedule computes is not `round_half_up(balance * monthly_rate)` as the
claim states it. -/
theorem first_step_interest_mismatch :
    0 < mC1.rate ∧ 1 ≤ mC1.months ∧
    mC1.first_pair.2 = 51029/100 ∧
    dollar_half_up (dollar_ceiling mC1.amount * spec_monthly_rate mC1.rate) = 51030/100 ∧
    (51029/100 : ℚ) ≠ 51030/100 := by
  refine ⟨by norm_num [mC1, Mortgage.rate], by norm_num [mC1], ?_, ?_, by norm_num⟩
  · rw [mC1.first_pair_interest, show mC1.rate = 612345678/10000000000 from rfl,
      quantize6_mC1rate, show mC1.amount = 100000 from rfl, dollar_ceiling_100000,
      interest_61235_100000]
  · rw [show mC1.rate = 612345678/10000000000 from rfl, spec_monthly_rate_mC1rate,
      show mC1.amount = 100000 from rfl, dollar_ceiling_100000, interest_5103_100000]

/-- Claim C1 (amended): every complete run of the schedule generator obeys
the per-step rule: interest is `round_half_up(balance * monthly_rate)` with
`monthly_rate` the annual rate quantized once, at schedule start, to 6
decimal digits and then divided by 12 (not re-rounded at any later step);
a step with `monthly_payment >= balance + interest` yields
`(balance, interest)` and terminates, any other step yields
`(monthly_payment - interest, interest)` and reduces the balance by the
principal portion. -/
theorem schedule_follows_step_rule (m : Mortgage) (hr : 0 < m.rate) (hn : 1 ≤ m.months)
    (fuel : ℕ) (L : List (ℚ × ℚ)) (h : m.schedule fuel = some L) :
    ScheduleOK m.monthly_payment (quantize6 m.rate / 12) (dollar_ceiling m.amount) L :=
  schedule_aux_ok m.monthly_payment (quantize6 m.rate) fuel (dollar_ceiling m.amount) L h

/-- Witness for the amended C1 at the loan m1 (whose schedule is the single
final pair (100, 0.50)). -/
theorem schedule_follows_step_rule_witness :
    0 < m1.rate ∧ 1 ≤ m1.months ∧
    ScheduleOK m1.monthly_payment (quantize6 m1.rate / 12) (dollar_ceiling m1.amount)
      [(100, 1/2)] :=
  ⟨by norm_num [m1, Mortgage.rate], by norm_num [m1],
    schedule_follows_step_rule m1 (by norm_num [m1, Mortgage.rate]) (by norm_num [m1]) 1 _
      m1_schedule⟩

/-- Claim C3 counterexample: the loan stuck1 (rate 0.06 > 0, 2400 months,
principal 99999 > 0) has payment 500.00 equal to its first-period interest
`round_half_up(99999 * 0.06/12) = round_half_up(499.995) = 500.00`, so every
iteration yields principal portion 0.00 and the generator never completes:
there is no finite list of yielded pairs whose principal portions could sum
to the principal. -/
theorem schedule_never_completes_stuck1 :
    0 < stuck1.rate ∧ 1 ≤ stuck1.months ∧ 0 < stuck1.amount ∧ stuck1.schedule_diverges := by
  refine ⟨by norm_num [stuck1, Mortgage.rate], by norm_num [stuck1],
    by norm_num [stuck1], ?_⟩
  intro fuel
  show schedule_aux stuck1.monthly_payment (quantize6 stuck1.rate) fuel
    (dollar_ceiling stuck1.amount) = none
  rw [stuck1_payment, show stuck1.rate = 6/100 from rfl, quantize6_006,
    show stuck1.amount = 99999 from rfl, dollar_ceiling_99999]
  exact diverges_of_zero_principal
    (by rw [interest_006_99999]; norm_num)
    (by rw [interest_006_99999]; norm_num) fuel

/-- Claim C3 (amended): if additionally the principal is positive and
`monthly_payment()` strictly exceeds the first-period interest charge, the
schedule completes, the principal portions of the yielded pairs sum exactly
to the construction-rounded principal (equivalently, the final balance is
paid down to exactly zero), and the final pair's principal portion is at
most `monthly_payment()`. -/
theorem schedule_sum_equals_principal (m : Mortgage) (hr : 0 < m.rate) (hn : 1 ≤ m.months)
    (hA : 0 < m.amount)
    (hPI : schedule_interest (quantize6 m.rate) (dollar_ceiling m.amount) < m.monthly_payment) :
    ∃ fuel L, m.schedule fuel = some L ∧
      (L.map Prod.fst).sum = dollar_ceiling m.amount ∧
      ∃ p, L.getLast? = some p ∧ p.1 ≤ m.monthly_payment := by
  have hr6 : 0 ≤ quantize6 m.rate := quantize6_nonneg (le_of_lt hr)
  obtain ⟨L, hL⟩ := schedule_aux_terminates m.monthly_payment (quantize6 m.rate)
    (dollar_ceiling m.amount) hr6 (m.monthly_payment_isCents) hPI
    (((100 * dollar_ceiling m.amount).num).toNat + 1) (dollar_ceiling m.amount)
    (dollar_ceiling_isCents _) le_rfl (by omega)
  have hBpos : 0 < dollar_ceiling m.amount := by
    unfold dollar_ceiling
    have h1 : 0 < ⌈m.amount * 100⌉ := Int.ceil_pos.mpr (by positivity)
    have h2 : (0:ℚ) < ((⌈m.amount * 100⌉ : ℤ) : ℚ) := by exact_mod_cast h1
    exact div_pos h2 (by norm_num)
  exact ⟨_, L, hL, schedule_aux_sum _ _ _ _ _ hL,
    schedule_aux_last _ _ hr6 _ _ _ hBpos hL⟩

/-- Witness for the amended C3 at the loan m1. -/
theorem schedule_sum_equals_principal_witness :
    0 < m1.rate ∧ 1 ≤ m1.months ∧ 0 < m1.amount ∧
    schedule_interest (quantize6 m1.rate) (dollar_ceiling m1.amount) < m1.monthly_payment ∧
    (∃ fuel L, m1.schedule fuel = some L ∧
      (L.map Prod.fst).sum = dollar_ceiling m1.amount ∧
      ∃ p, L.getLast? = some p ∧ p.1 ≤ m1.monthly_payment) :=
  ⟨by norm_num [m1, Mortgage.rate], by norm_num [m1], by norm_num [m1],
    by
      rw [show m1.rate = 6/100 from rfl, quantize6_006, show m1.amount = 100 from rfl,
        dollar_ceiling_100, interest_006_100, m1_payment]
      norm_num,
    schedule_sum_equals_principal m1 (by norm_num [m1, Mortgage.rate]) (by norm_num [m1])
      (by norm_num [m1])
      (by
        rw [show m1.rate = 6/100 from rfl, quantize6_006, show m1.amount = 100 from rfl,
          dollar_ceiling_100, interest_006_100, m1_payment]
        norm_num)⟩

/-- Claim C4 counterexample: the loan stuck2 (rate 1.2 > 0, 240 months,
principal 50.05) has payment 5.01 equal to its first-period interest
`round_half_up(50.05 * 1.2/12) = round_half_up(5.005) = 5.01`, so the
balance never decreases and `monthly_payment_schedule` yields infinitely
many pairs: the claim that every loan with rate > 0 and term ≥ 1 yields
finitely many pairs is false. -/
theorem schedule_never_completes_stuck2 :
    0 < stuck2.rate ∧ 1 ≤ stuck2.months ∧ stuck2.schedule_diverges := by
  refine ⟨by norm_num [stuck2, Mortgage.rate], by norm_num [stuck2], ?_⟩
  intro fuel
  show schedule_aux stuck2.monthly_payment (quantize6 stuck2.rate) fuel
    (dollar_ceiling stuck2.amount) = none
  rw [stuck2_payment, show stuck2.rate = 12/10 from rfl, quantize6_12,
    show stuck2.amount = 5005/100 from rfl, dollar_ceiling_5005]
  exact diverges_of_zero_principal
    (by rw [interest_12_5005]; norm_num)
    (by rw [interest_12_5005]; norm_num) fuel

/-- Claim C4 (amended): provided `monthly_payment()` strictly exceeds the
first-period interest charge, the generator yields only finitely many pairs
(some fuel completes it), and the running balance strictly decreases at
every non-final step. -/
theorem schedule_terminates_strictly_decreasing (m : Mortgage) (hr : 0 < m.rate)
    (hn : 1 ≤ m.months)
    (hPI : schedule_interest (quantize6 m.rate) (dollar_ceiling m.amount) < m.monthly_payment) :
    (∃ fuel L, m.schedule fuel = some L) ∧
    (∀ B, isCents B → B ≤ dollar_ceiling m.amount →
      ¬ m.monthly_payment ≥ B + schedule_interest (quantize6 m.rate) B →
      B - (m.monthly_payment - schedule_interest (quantize6 m.rate) B) < B) := by
  have hr6 : 0 ≤ quantize6 m.rate := quantize6_nonneg (le_of_lt hr)
  constructor
  · obtain ⟨L, hL⟩ := schedule_aux_terminates m.monthly_payment (quantize6 m.rate)
      (dollar_ceiling m.amount) hr6 (m.monthly_payment_isCents) hPI
      (((100 * dollar_ceiling m.amount).num).toNat + 1) (dollar_ceiling m.amount)
      (dollar_ceiling_isCents _) le_rfl (by omega)
    exact ⟨_, L, hL⟩
  · intro B hBc hBle hcond
    have hIle : schedule_interest (quantize6 m.rate) B ≤
        schedule_interest (quantize6 m.rate) (dollar_ceiling m.amount) :=
      schedule_interest_mono hr6 hBle
    have hIlt : schedule_interest (quantize6 m.rate) B < m.monthly_payment :=
      lt_of_le_of_lt hIle hPI
    linarith

/-- Witness for the amended C4 at the loan m1. -/
theorem schedule_terminates_strictly_decreasing_witness :
    0 < m1.rate ∧ 1 ≤ m1.months ∧
    schedule_interest (quantize6 m1.rate) (dollar_ceiling m1.amount) < m1.monthly_payment ∧
    ((∃ fuel L, m1.schedule fuel = some L) ∧
     (∀ B, isCents B → B ≤ dollar_ceiling m1.amount →
       ¬ m1.monthly_payment ≥ B + schedule_interest (quantize6 m1.rate) B →
       B - (m1.monthly_payment - schedule_interest (quantize6 m1.rate) B) < B)) :=
  ⟨by norm_num [m1, Mortgage.rate], by norm_num [m1],
    by
      rw [show m1.rate = 6/100 from rfl, quantize6_006, show m1.amount = 100 from rfl,
        dollar_ceiling_100, interest_006_100, m1_payment]
      norm_num,
    schedule_terminates_strictly_decreasing m1 (by norm_num [m1, Mortgage.rate])
      (by norm_num [m1])
      (by
        rw [show m1.rate = 6/100 from rfl, quantize6_006, show m1.amount = 100 from rfl,
          dollar_ceiling_100, interest_006_100, m1_payment]
        norm_num)⟩

/-- Claim C8 counterexample: with nonzero inflation, `total_payout` returns
the raw present-value number with no rounding to cents.  At inflation = 4095
the monthly discount factor `(1+4095)**(-1.0/12) = 4096^(-1/12)` is exactly
1/2 (as witnessed by `(1/2)^12 = 1/4096`); for the loan m360 over its full
term the returned value is `599.56 * (1 - 2^(-360))`, which is not an exact
2-decimal value. -/
theorem total_payout_inflation_not_cents :
    ((1:ℚ)/2)^(12:ℕ) = 1/4096 ∧
    ¬ isCents (m360.total_payout_infl 360 (1/2)) := by
  refine ⟨by norm_num, ?_⟩
  intro h
  obtain ⟨z, hz⟩ := (isCents_iff _).mp h
  rw [Mortgage.total_payout_infl, m360_payment] at hz
  have hpow : ((1:ℚ)/2)^((360:ℤ)) = 1/2^(360:ℕ) := by
    rw [show ((360:ℤ)) = ((360:ℕ):ℤ) from rfl, zpow_natCast, div_pow, one_pow]
  rw [hpow] at hz
  have ht : (0:ℚ) < 2^(360:ℕ) := by positivity
  have hkey : (59956:ℚ) * 2^(360:ℕ) - 59956 = (z:ℚ) * 2^(360:ℕ) := by
    field_simp at hz
    linarith
  have hki : (59956:ℤ) * 2^(360:ℕ) - 59956 = z * 2^(360:ℕ) := by
    exact_mod_cast hkey
  have hfin : ((59956:ℤ) - z) * 2^(360:ℕ) = 59956 := by
    linear_combination hki
  have h8 : ((2:ℤ))^(360:ℕ) = 2^(357:ℕ) * 8 := by
    rw [show (360:ℕ) = 357 + 3 from rfl, pow_add]
    norm_num
  rw [h8] at hfin
  have hdvd : (8:ℤ) ∣ 59956 := ⟨(59956 - z) * 2^(357:ℕ), by linear_combination -hfin⟩
  norm_num at hdvd

/-- Claim C8 (amended): every monetary value produced by the engine with
zero inflation — the stored principal (`dollar`-rounded at construction),
`monthly_payment()`, `annual_payment()`, `total_payout` for any horizon,
`total_cost`, `balance`, and both components of every pair yielded by
`monthly_payment_schedule` — is an exact decimal value with 2 fractional
digits; `total_payout` with nonzero inflation is the exception excluded by
the counterexample. -/
theorem money_values_are_cents (m : Mortgage) (mMonths : ℤ) (hA : isCents m.amount) :
    (∀ a : ℚ, isCents (dollar_ceiling a)) ∧
    isCents m.monthly_payment ∧ isCents m.annual_payment ∧
    isCents (m.total_payout mMonths) ∧ isCents (m.total_cost mMonths) ∧
    isCents (m.balance mMonths) ∧
    (∀ fuel L, m.schedule fuel = some L → ∀ p ∈ L, isCents p.1 ∧ isCents p.2) := by
  refine ⟨fun a => dollar_ceiling_isCents a, m.monthly_payment_isCents, ?_,
    m.total_payout_isCents mMonths, ?_, dollar_ceiling_isCents _, ?_⟩
  · unfold Mortgage.annual_payment
    obtain ⟨z, hz⟩ := (isCents_iff _).mp m.monthly_payment_isCents
    rw [hz]
    refine (isCents_iff _).mpr ⟨z * 12, ?_⟩
    push_cast
    ring
  · unfold Mortgage.total_cost
    exact isCents_sub (dollar_ceiling_isCents _) (isCents_sub hA (dollar_ceiling_isCents _))
  · intro fuel L hL p hp
    exact schedule_aux_pairs_cents m.monthly_payment (quantize6 m.rate)
      (m.monthly_payment_isCents) fuel (dollar_ceiling m.amount) L
      (dollar_ceiling_isCents _) hL p hp

/-- Witness for the amended C8 at the loan m1 with horizon 1. -/
theorem money_values_are_cents_witness :
    isCents m1.amount ∧
    ((∀ a : ℚ, isCents (dollar_ceiling a)) ∧
     isCents m1.monthly_payment ∧ isCents m1.annual_payment ∧
     isCents (m1.total_payout 1) ∧ isCents (m1.total_cost 1) ∧
     isCents (m1.balance 1) ∧
     (∀ fuel L, m1.schedule fuel = some L → ∀ p ∈ L, isCents p.1 ∧ isCents p.2)) :=
  ⟨(isCents_iff _).mpr ⟨10000, by norm_num [m1]⟩,
    money_values_are_cents m1 1 ((isCents_iff _).mpr ⟨10000, by norm_num [m1]⟩)⟩
